import Mathlib

/-!
Verification development for the AS7343 spectrophotometer firmware
(sensor driver `Pimoroni_AS7343.cpp` and application layer `spectro_app.cpp`).

The I2C bus is modelled by explicit state passing.  The environment supplies
* `ext t r`   : the byte the device would answer for register `r` on the
                `t`-th bus transaction (this lets device-updated registers such
                as STATUS2 and the channel data registers vary over time);
* `failAt t`  : whether the `t`-th bus transaction NACKs / short-reads;
* `clock c`   : the value returned by the `c`-th call to `millis()`.
Registers written by the driver shadow `ext` from then on (config registers
keep the value the driver last wrote).  Machine integers are `Nat` with
explicit `% 2^w` where the C code truncates.
-/

namespace Spectro

--==================== device constants (Pimoroni_AS7343.h) ====================--

def AS7343_I2C_ADDRESS : Nat := 0x39
def AS7343_DEVICE_ID : Nat := 0x81
def AS7343_REG_ID : Nat := 0x5A
def AS7343_REG_ENABLE : Nat := 0x80
def AS7343_REG_ATIME : Nat := 0x81
def AS7343_REG_STATUS2 : Nat := 0x90
def AS7343_REG_CFG0 : Nat := 0xBF
def AS7343_REG_CFG1 : Nat := 0xC6
def AS7343_REG_CFG20 : Nat := 0xD6
def AS7343_REG_ASTEP_L : Nat := 0xD4
def AS7343_REG_ASTEP_H : Nat := 0xD5
def AS7343_REG_DATA0_L : Nat := 0x95
def AS7343_NUM_CHANNELS : Nat := 18
def AS7343_NUM_SORTED_CHANNELS : Nat := 12
def AS7343_STATUS2_AVALID_BIT : Nat := 64   -- (1 << 6)

-- channel indices (enum AS7343_Channel_t, in declaration order 0..17)
def AS7343_CH_BLUE_FZ_450NM : Nat := 0
def AS7343_CH_GREEN_FY_555NM : Nat := 1
def AS7343_CH_ORANGE_FXL_600NM : Nat := 2
def AS7343_CH_NIR_855NM : Nat := 3
def AS7343_CH_DARK_BLUE_F2_425NM : Nat := 6
def AS7343_CH_LIGHT_BLUE_F3_475NM : Nat := 7
def AS7343_CH_BLUE_F4_515NM : Nat := 8
def AS7343_CH_BROWN_F6_640NM : Nat := 9
def AS7343_CH_PURPLE_F1_405NM : Nat := 12
def AS7343_CH_RED_F7_690NM : Nat := 13
def AS7343_CH_DARK_RED_F8_745NM : Nat := 14
def AS7343_CH_GREEN_F5_550NM : Nat := 15

--==================== bus / device state ====================--

/-- State threaded through every modelled bus transaction.  `writes` is the
most-recent-first log of `(register, byte)` writes the driver issued;
`timeoutMs` models the driver-global `s_dataReadyTimeoutMs`. -/
structure DrvState where
  ext : Nat → Nat → Nat
  failAt : Nat → Bool
  writes : List (Nat × Nat)
  tx : Nat
  clock : Nat → Nat
  clk : Nat
  timeoutMs : Nat

/-- Most recent write to `reg`, if any. -/
def findWrite : List (Nat × Nat) → Nat → Option Nat
  | [], _ => none
  | (r, v) :: rest, reg => if r = reg then some v else findWrite rest reg

/-- Current byte content of register `reg`: the last value the driver wrote,
else the environment-supplied device value for the current transaction. -/
def regVal (s : DrvState) (reg : Nat) : Nat :=
  match findWrite s.writes reg with
  | some v => v % 256
  | none => s.ext s.tx reg % 256

def txAdvance (s : DrvState) : DrvState :=
  { s with tx := s.tx + 1 }

/-- `AS7343_i2c_read_reg`: single-byte register read; fails iff the
environment fails this transaction. -/
def AS7343_i2c_read_reg (s : DrvState) (_dev reg : Nat) : Option Nat × DrvState :=
  if s.failAt s.tx then (none, txAdvance s)
  else (some (regVal s reg), txAdvance s)

/-- `AS7343_i2c_write_reg`: single-byte register write (value truncated to a
byte as by `uint8_t`). -/
def AS7343_i2c_write_reg (s : DrvState) (_dev reg v : Nat) : Bool × DrvState :=
  if s.failAt s.tx then (false, txAdvance s)
  else (true, { s with writes := (reg, v % 256) :: s.writes, tx := s.tx + 1 })

/-- `AS7343_i2c_read`: burst read of `len` bytes from ascending registers,
one bus transaction. -/
def AS7343_i2c_read (s : DrvState) (_dev reg len : Nat) : Option (List Nat) × DrvState :=
  if s.failAt s.tx then (none, txAdvance s)
  else (some ((List.range len).map fun k => regVal s (reg + k)), txAdvance s)

/-- Arduino `millis()`: monotonic only as far as the environment makes it;
truncated to `uint32_t`. -/
def millis (s : DrvState) : Nat × DrvState :=
  (s.clock s.clk % 4294967296, { s with clk := s.clk + 1 })

--==================== sensor driver (Pimoroni_AS7343.cpp) ====================--

/-- `AS7343_set_reg_bank`: read-modify-write of bit 4 of CFG0 (0xBF). -/
def AS7343_set_reg_bank (bank : Nat) (s : DrvState) : Bool × DrvState :=
  match AS7343_i2c_read_reg s AS7343_I2C_ADDRESS AS7343_REG_CFG0 with
  | (none, s1) => (false, s1)
  | (some cfg0, s1) =>
    let cfg0' := if bank = 1 then cfg0 ||| 16 else cfg0 &&& 0xEF
    AS7343_i2c_write_reg s1 AS7343_I2C_ADDRESS AS7343_REG_CFG0 cfg0'

/-- Bank-select bit currently held by the device (bit 4 of CFG0). -/
def deviceBank (s : DrvState) : Nat :=
  (regVal s AS7343_REG_CFG0 >>> 4) &&& 1

/-- `AS7343_is_connected`: switch to bank 1, read ID, switch back to bank 0,
compare with the expected device ID.  Each early `return false` of the C
code is a `(false, _)` result here. -/
def AS7343_is_connected (s : DrvState) : Bool × DrvState :=
  match AS7343_set_reg_bank 1 s with
  | (false, s1) => (false, s1)
  | (true, s1) =>
    match AS7343_i2c_read_reg s1 AS7343_I2C_ADDRESS AS7343_REG_ID with
    | (none, s2) => (false, s2)
    | (some id, s2) =>
      match AS7343_set_reg_bank 0 s2 with
      | (false, s3) => (false, s3)
      | (true, s3) => (decide (id = AS7343_DEVICE_ID), s3)

/-- `AS7343_set_gain`: require bank 0 then read-modify-write the low 5 bits
of CFG1 (0xC6).  `cfg1 &= ~0x1F` on a `uint8_t` is `&&& 0xE0`. -/
def AS7343_set_gain (gain : Nat) (s : DrvState) : Bool × DrvState :=
  match AS7343_set_reg_bank 0 s with
  | (false, s1) => (false, s1)
  | (true, s1) =>
    match AS7343_i2c_read_reg s1 AS7343_I2C_ADDRESS AS7343_REG_CFG1 with
    | (none, s2) => (false, s2)
    | (some cfg1, s2) =>
      AS7343_i2c_write_reg s2 AS7343_I2C_ADDRESS AS7343_REG_CFG1
        ((cfg1 &&& 0xE0) ||| (gain &&& 0x1F))

/-- `AS7343_set_integration_time`: bank 0, write ATIME, then ASTEP low byte
to 0xD4 and high byte to 0xD5. -/
def AS7343_set_integration_time (atime astep : Nat) (s : DrvState) : Bool × DrvState :=
  match AS7343_set_reg_bank 0 s with
  | (false, s1) => (false, s1)
  | (true, s1) =>
    match AS7343_i2c_write_reg s1 AS7343_I2C_ADDRESS AS7343_REG_ATIME atime with
    | (false, s2) => (false, s2)
    | (true, s2) =>
      match AS7343_i2c_write_reg s2 AS7343_I2C_ADDRESS AS7343_REG_ASTEP_L (astep &&& 0xFF) with
      | (false, s3) => (false, s3)
      | (true, s3) =>
        AS7343_i2c_write_reg s3 AS7343_I2C_ADDRESS AS7343_REG_ASTEP_H ((astep >>> 8) &&& 0xFF)

/-- `AS7343_set_data_ready_timeout`: store into the `uint16_t` global. -/
def AS7343_set_data_ready_timeout (timeout_ms : Nat) (s : DrvState) : DrvState :=
  { s with timeoutMs := timeout_ms % 65536 }

/-- The do-while polling loop of `AS7343_wait_data_ready`.  `fuel` bounds the
number of iterations the model unfolds; `none` means the bound was hit
(the C loop would still be spinning).  The loop guard is the C expression
`(uint16_t)(millis() - start) < s_dataReadyTimeoutMs` on `uint32_t` values. -/
def AS7343_wait_loop (start : Nat) : Nat → DrvState → Option (Bool × DrvState)
  | 0, _ => none
  | fuel + 1, s =>
    match AS7343_i2c_read_reg s AS7343_I2C_ADDRESS AS7343_REG_STATUS2 with
    | (none, s1) => some (false, s1)
    | (some status2, s1) =>
      if status2 &&& AS7343_STATUS2_AVALID_BIT ≠ 0 then some (true, s1)
      else
        let m := millis s1
        if (m.1 + 4294967296 - start) % 4294967296 % 65536 < m.2.timeoutMs then
          AS7343_wait_loop start fuel m.2
        else some (false, m.2)

/-- `AS7343_wait_data_ready`: capture `millis()`, force bank 0, then poll
STATUS2.AVALID until set or timeout. -/
def AS7343_wait_data_ready (fuel : Nat) (s : DrvState) : Option (Bool × DrvState) :=
  let st := millis s
  match AS7343_set_reg_bank 0 st.2 with
  | (false, s1) => some (false, s1)
  | (true, s1) => AS7343_wait_loop st.1 fuel s1

/-- Little-endian assembly `((uint16_t)raw[1] << 8) | raw[0]`. -/
def le16 (raw : List Nat) : Nat :=
  (raw.getD 1 0 <<< 8) ||| raw.getD 0 0

/-- The 18-iteration burst-read loop of `AS7343_read_all_channels`:
`n` counts remaining iterations, `i` is the loop index, `reg` the current
data register.  On a failed burst it returns `false` without touching the
slots from `i` on. -/
def readChanLoop : Nat → Nat → Nat → List Nat → DrvState → Bool × List Nat × DrvState
  | 0, _, _, buf, s => (true, buf, s)
  | n + 1, i, reg, buf, s =>
    match AS7343_i2c_read s AS7343_I2C_ADDRESS reg 2 with
    | (none, s1) => (false, buf, s1)
    | (some raw, s1) => readChanLoop n (i + 1) (reg + 2) (buf.set i (le16 raw)) s1

/-- `AS7343_read_all_channels`: length check, bank 0, wait for data ready,
then 18 sequential 2-byte bursts.  (The C `data == NULL` check has no
counterpart: buffers are modelled by value.) -/
def AS7343_read_all_channels (fuel : Nat) (buf : List Nat) (length : Nat) (s : DrvState) :
    Option (Bool × List Nat × DrvState) :=
  if length < AS7343_NUM_CHANNELS then some (false, buf, s)
  else
    match AS7343_set_reg_bank 0 s with
    | (false, s1) => some (false, buf, s1)
    | (true, s1) =>
      match AS7343_wait_data_ready fuel s1 with
      | none => none
      | some (false, s2) => some (false, buf, s2)
      | some (true, s2) =>
        some (readChanLoop AS7343_NUM_CHANNELS 0 AS7343_REG_DATA0_L buf s2)

/-- The twelve assignments of `AS7343_get_sorted_spectral_channels`, writing
the wavelength-ordered channels into the caller's buffer. -/
def sortedAssign (data11 raw : List Nat) : List Nat :=
  ((((((((((((data11.set 0 (raw.getD AS7343_CH_PURPLE_F1_405NM 0)).set 1
    (raw.getD AS7343_CH_DARK_BLUE_F2_425NM 0)).set 2
    (raw.getD AS7343_CH_BLUE_FZ_450NM 0)).set 3
    (raw.getD AS7343_CH_LIGHT_BLUE_F3_475NM 0)).set 4
    (raw.getD AS7343_CH_BLUE_F4_515NM 0)).set 5
    (raw.getD AS7343_CH_GREEN_F5_550NM 0)).set 6
    (raw.getD AS7343_CH_GREEN_FY_555NM 0)).set 7
    (raw.getD AS7343_CH_ORANGE_FXL_600NM 0)).set 8
    (raw.getD AS7343_CH_BROWN_F6_640NM 0)).set 9
    (raw.getD AS7343_CH_RED_F7_690NM 0)).set 10
    (raw.getD AS7343_CH_DARK_RED_F8_745NM 0)).set 11
    (raw.getD AS7343_CH_NIR_855NM 0))

/-- `AS7343_get_sorted_spectral_channels`: run `AS7343_read_all_channels`
into a fresh local 18-entry buffer (uninitialised in C, modelled as zeros —
every slot is overwritten before use on the success path), then apply the
fixed wavelength permutation into `data11`. -/
def AS7343_get_sorted_spectral_channels (fuel : Nat) (data11 : List Nat) (s : DrvState) :
    Option (Bool × List Nat × DrvState) :=
  match AS7343_read_all_channels fuel (List.replicate AS7343_NUM_CHANNELS 0)
      AS7343_NUM_CHANNELS s with
  | none => none
  | some (false, _, s1) => some (false, data11, s1)
  | some (true, raw, s1) => some (true, sortedAssign data11 raw, s1)

--==================== application layer (spectro_app.cpp) ====================--

/-- `SpectroMeasurement_t`. -/
structure SpectroMeasurement where
  raw : List Nat
  sorted : List Nat

/-- The stack-local `SpectroMeasurement_t meas` of `spectro_app_run_once`
(uninitialised in C; modelled as zeros). -/
def measLocal : SpectroMeasurement :=
  ⟨List.replicate AS7343_NUM_CHANNELS 0, List.replicate AS7343_NUM_SORTED_CHANNELS 0⟩

/-- Application globals `s_appMode` / `s_precMode`.  Both are C enums held in
ordinary integer storage, so they are modelled as `Nat` (the dispatch
switches have `default` branches for out-of-range values). -/
structure AppState where
  appMode : Nat
  precMode : Nat

/-- `spectro_app_set_precision_mode`: store the mode, then program
(ATIME, ASTEP) and the data-ready timeout per the fixed per-level values.
The C `switch` sends every value other than 0 and 1 to the HIGH arm. -/
def spectro_app_set_precision_mode (prec : Nat) (app : AppState) (s : DrvState) :
    AppState × DrvState :=
  let app' := { app with precMode := prec }
  match prec with
  | 0 =>
    let r := AS7343_set_integration_time 0x00 999 s
    (app', AS7343_set_data_ready_timeout 50 r.2)
  | 1 =>
    let r := AS7343_set_integration_time 0x01 20000 s
    (app', AS7343_set_data_ready_timeout 500 r.2)
  | _ =>
    let r := AS7343_set_integration_time 0x00 65534 s
    (app', AS7343_set_data_ready_timeout 800 r.2)

/-- `spectro_app_acquire`: fill `meas->raw` with one 18-channel read, then
fill `meas->sorted` via `AS7343_get_sorted_spectral_channels` (which performs
its own, second 18-channel read). -/
def spectro_app_acquire (fuel : Nat) (meas : SpectroMeasurement) (s : DrvState) :
    Option (Bool × SpectroMeasurement × DrvState) :=
  match AS7343_read_all_channels fuel meas.raw AS7343_NUM_CHANNELS s with
  | none => none
  | some (false, raw1, s1) => some (false, ⟨raw1, meas.sorted⟩, s1)
  | some (true, raw1, s1) =>
    match AS7343_get_sorted_spectral_channels fuel meas.sorted s1 with
    | none => none
    | some (ok, sorted1, s2) => some (ok, ⟨raw1, sorted1⟩, s2)

/-- The per-channel CSV emission loop shared by all three handlers:
`for (i = 0; i < n; ++i) { print(v[i]); if (i < n-1) print(','); }`,
with the consecutive `Serial.print` calls of one line modelled as string
concatenation. -/
def printCSV (vals : List Nat) (n : Nat) : String :=
  (List.range n).foldl
    (fun acc i => acc ++ toString (vals.getD i 0) ++ (if i < n - 1 then "," else "")) ""

/-- `spectro_app_handle_data_log`: one serial line. -/
def spectro_app_handle_data_log (meas : SpectroMeasurement) : List String :=
  ["SORTED(405-855nm): " ++ printCSV meas.sorted AS7343_NUM_SORTED_CHANNELS]

/-- `spectro_app_handle_infer_local`: stub, one serial line. -/
def spectro_app_handle_infer_local (meas : SpectroMeasurement) : List String :=
  ["[spectro_app] Local inference stub. Inputs: " ++ printCSV meas.sorted AS7343_NUM_SORTED_CHANNELS]

/-- `spectro_app_handle_infer_pc`: emit the `MEAS,` line, then echo back the
one pending inbound line (if any, trimmed, nonempty).  `pcIn` models
`Serial.available()` plus `Serial.readStringUntil`. -/
def spectro_app_handle_infer_pc (meas : SpectroMeasurement) (pcIn : Option String) : List String :=
  let measLine := "MEAS," ++ printCSV meas.sorted AS7343_NUM_SORTED_CHANNELS
  match pcIn with
  | none => [measLine]
  | some line =>
    let t := line.trim
    if t.length > 0 then [measLine, "[spectro_app] PC response: " ++ t]
    else [measLine]

/-- `spectro_app_run_once`: acquire into the stack local; on failure print
the diagnostic and return; on success dispatch on the mode switch (with the
`default` arm falling back to data logging).  The result carries the emitted
serial lines and the (unchanged) application state. -/
def spectro_app_run_once (fuel : Nat) (pcIn : Option String) (app : AppState) (s : DrvState) :
    Option (List String × AppState × DrvState) :=
  match spectro_app_acquire fuel measLocal s with
  | none => none
  | some (false, _, s1) =>
    some (["[spectro_app] ERROR: Failed to acquire measurement."], app, s1)
  | some (true, m, s1) =>
    match app.appMode with
    | 0 => some (spectro_app_handle_data_log m, app, s1)
    | 1 => some (spectro_app_handle_infer_local m, app, s1)
    | 2 => some (spectro_app_handle_infer_pc m pcIn, app, s1)
    | _ => some (spectro_app_handle_data_log m, app, s1)

--==================== helper lemmas ====================--

theorem findWrite_cons_ne (r v reg : Nat) (w : List (Nat × Nat)) (h : r ≠ reg) :
    findWrite ((r, v) :: w) reg = findWrite w reg := by
  simp [findWrite, h]

theorem regVal_lt (s : DrvState) (reg : Nat) : regVal s reg < 256 := by
  unfold regVal
  cases findWrite s.writes reg <;> simp <;> omega

theorem regVal_mk_head (e : Nat → Nat → Nat) (f : Nat → Bool) (c : Nat → Nat)
    (w : List (Nat × Nat)) (reg v tx clk tmo : Nat) :
    regVal ⟨e, f, (reg, v) :: w, tx, c, clk, tmo⟩ reg = v % 256 := by
  simp [regVal, findWrite]

--==================== concrete environments for witnesses ====================--

/-- A bus that never fails. -/
def noFail : Nat → Bool := fun _ => false

/-- A clock frozen at zero. -/
def clk0 : Nat → Nat := fun _ => 0

/-- Device image: STATUS2 always has AVALID set, channel data register pairs
hold the little-endian encodings of 0,1,...,17, everything else reads 0. -/
def extAsc : Nat → Nat → Nat := fun _ r =>
  if r = 0x90 then 0x40
  else if 0x95 ≤ r ∧ r ≤ 0xB8 then (if (r - 0x95) % 2 = 0 then (r - 0x95) / 2 else 0)
  else 0

def sAsc : DrvState := ⟨extAsc, noFail, [], 0, clk0, 0, 100⟩

/-- Device image whose data registers read 0 up to transaction 22 (the first
18-channel read) and 1 from transaction 23 on (the second read inside
`AS7343_get_sorted_spectral_channels`): the sensor finished a new
measurement between the two reads of one `spectro_app_acquire` call. -/
def extC1 : Nat → Nat → Nat := fun t r =>
  if r = 0x90 then 0x40 else if t < 23 then 0 else 1

def sC1 : DrvState := ⟨extC1, noFail, [], 0, clk0, 0, 100⟩

/-- A bus whose third transaction (the identity-register read inside
`AS7343_is_connected`) fails. -/
def failIdRead : Nat → Bool := fun n => n == 2

def sC2 : DrvState := ⟨fun _ _ => 0, failIdRead, [], 0, clk0, 0, 100⟩

/-- A bus where every transaction fails. -/
def allFail : Nat → Bool := fun _ => true

def sFailAll : DrvState := ⟨fun _ _ => 0, allFail, [], 0, clk0, 0, 100⟩

instance : Inhabited DrvState := ⟨⟨fun _ _ => 0, fun _ => false, [], 0, fun _ => 0, 0, 0⟩⟩

--==================== C4 ====================--

/-- The (ATIME, ASTEP, timeout) table of spec §4.2, one component each
(ATIME per precision level). -/
def specATIME : Nat → Nat
  | 1 => 0x01
  | _ => 0x00

/-- ASTEP per precision level from the spec §4.2 table. -/
def specASTEP : Nat → Nat
  | 0 => 999
  | 1 => 20000
  | _ => 65534

/-- Data-ready timeout (ms) per precision level from the spec §4.2 table. -/
def specTimeoutMs : Nat → Nat
  | 0 => 50
  | 1 => 500
  | _ => 800

/-- C4: for each of the three precision levels, a successful
`spectro_app_set_precision_mode` issues exactly one ATIME write, one
ASTEP_L write (the ASTEP low byte, first) and one ASTEP_H write (the high
byte, second) with the table's values, stores the table's timeout, and
issues no other register write beyond the one CFG0 bank-select write of the
bank-0 switch. -/
theorem set_precision_mode_programs_table (prec : Nat) (app : AppState) (s : DrvState)
    (hp : prec < 3) (hok : ∀ j, j < 5 → s.failAt (s.tx + j) = false) :
    (spectro_app_set_precision_mode prec app s).1.appMode = app.appMode ∧
    (spectro_app_set_precision_mode prec app s).1.precMode = prec ∧
    (spectro_app_set_precision_mode prec app s).2.writes =
      (AS7343_REG_ASTEP_H, (specASTEP prec >>> 8) &&& 255) ::
      (AS7343_REG_ASTEP_L, specASTEP prec &&& 255) ::
      (AS7343_REG_ATIME, specATIME prec) ::
      (AS7343_REG_CFG0, (regVal s AS7343_REG_CFG0 &&& 239) % 256) :: s.writes ∧
    (spectro_app_set_precision_mode prec app s).2.timeoutMs = specTimeoutMs prec ∧
    (spectro_app_set_precision_mode prec app s).2.tx = s.tx + 5 := by
  have h0 : s.failAt s.tx = false := by simpa using hok 0 (by omega)
  have h1 : s.failAt (s.tx + 1) = false := by simpa using hok 1 (by omega)
  have h2 : s.failAt (s.tx + 1 + 1) = false := by
    have := hok 2 (by omega); rwa [show s.tx + 2 = s.tx + 1 + 1 by omega] at this
  have h3 : s.failAt (s.tx + 1 + 1 + 1) = false := by
    have := hok 3 (by omega); rwa [show s.tx + 3 = s.tx + 1 + 1 + 1 by omega] at this
  have h4 : s.failAt (s.tx + 1 + 1 + 1 + 1) = false := by
    have := hok 4 (by omega); rwa [show s.tx + 4 = s.tx + 1 + 1 + 1 + 1 by omega] at this
  interval_cases prec <;>
    simp [spectro_app_set_precision_mode, AS7343_set_integration_time,
      AS7343_set_reg_bank, AS7343_i2c_read_reg, AS7343_i2c_write_reg,
      AS7343_set_data_ready_timeout, txAdvance, h0, h1, h2, h3, h4,
      specATIME, specASTEP, specTimeoutMs,
      AS7343_REG_ASTEP_H, AS7343_REG_ASTEP_L, AS7343_REG_ATIME, AS7343_REG_CFG0] <;>
    decide

/-- C4 witness: the medium level programs ATIME 0x01, ASTEP 20000
(low byte then high byte) and a 500 ms timeout on a concrete device. -/
theorem set_precision_mode_programs_table_witness :
    (spectro_app_set_precision_mode 1 ⟨0, 0⟩ sAsc).1.appMode = 0 ∧
    (spectro_app_set_precision_mode 1 ⟨0, 0⟩ sAsc).1.precMode = 1 ∧
    (spectro_app_set_precision_mode 1 ⟨0, 0⟩ sAsc).2.writes =
      (AS7343_REG_ASTEP_H, (specASTEP 1 >>> 8) &&& 255) ::
      (AS7343_REG_ASTEP_L, specASTEP 1 &&& 255) ::
      (AS7343_REG_ATIME, specATIME 1) ::
      (AS7343_REG_CFG0, (regVal sAsc AS7343_REG_CFG0 &&& 239) % 256) :: sAsc.writes ∧
    (spectro_app_set_precision_mode 1 ⟨0, 0⟩ sAsc).2.timeoutMs = specTimeoutMs 1 ∧
    (spectro_app_set_precision_mode 1 ⟨0, 0⟩ sAsc).2.tx = sAsc.tx + 5 :=
  set_precision_mode_programs_table 1 ⟨0, 0⟩ sAsc (by omega) (fun _ _ => rfl)

--==================== C7 ====================--

/-- A device whose CFG1 register reads 160 (high three bits 101). -/
def extGain : Nat → Nat → Nat := fun _ _ => 160

def sGain : DrvState := ⟨extGain, noFail, [], 0, clk0, 0, 100⟩

set_option maxRecDepth 8000 in
/-- C7: for every one of the 13 gain codes, a successful `AS7343_set_gain`
leaves the gain/config register CFG1 with its low 5 bits equal to the gain
code and its remaining 3 bits unchanged from before the call. -/
theorem set_gain_updates_low5_preserves_high3 (gain : Nat) (s : DrvState)
    (hg : gain < 13) (hok : ∀ j, j < 4 → s.failAt (s.tx + j) = false)
    (hstab : s.ext (s.tx + 1 + 1) AS7343_REG_CFG1 = s.ext s.tx AS7343_REG_CFG1) :
    (AS7343_set_gain gain s).1 = true ∧
    regVal (AS7343_set_gain gain s).2 AS7343_REG_CFG1 &&& 31 = gain ∧
    regVal (AS7343_set_gain gain s).2 AS7343_REG_CFG1 >>> 5 =
      regVal s AS7343_REG_CFG1 >>> 5 := by
  have h0 : s.failAt s.tx = false := by simpa using hok 0 (by omega)
  have h1 : s.failAt (s.tx + 1) = false := by simpa using hok 1 (by omega)
  have h2 : s.failAt (s.tx + 1 + 1) = false := by
    have := hok 2 (by omega); rwa [show s.tx + 2 = s.tx + 1 + 1 by omega] at this
  have h3 : s.failAt (s.tx + 1 + 1 + 1) = false := by
    have := hok 3 (by omega); rwa [show s.tx + 3 = s.tx + 1 + 1 + 1 by omega] at this
  simp only [AS7343_REG_CFG1] at hstab
  cases hfw : findWrite s.writes 198 with
  | none =>
    simp only [AS7343_set_gain, AS7343_set_reg_bank, AS7343_i2c_read_reg,
      AS7343_i2c_write_reg, txAdvance, h0, h1, h2, h3, Bool.false_eq_true, if_false,
      reduceIte, regVal, findWrite, hfw, hstab, AS7343_REG_CFG1, AS7343_REG_CFG0]
    norm_num
    generalize hgen : s.ext s.tx 198 % 256 = c
    have hc : c < 256 := by rw [← hgen]; exact Nat.mod_lt _ (by omega)
    clear hgen hstab hfw h0 h1 h2 h3 hok
    revert hc
    revert c
    revert hg
    revert gain
    decide
  | some v =>
    simp only [AS7343_set_gain, AS7343_set_reg_bank, AS7343_i2c_read_reg,
      AS7343_i2c_write_reg, txAdvance, h0, h1, h2, h3, Bool.false_eq_true, if_false,
      reduceIte, regVal, findWrite, hfw, hstab, AS7343_REG_CFG1, AS7343_REG_CFG0]
    norm_num
    generalize hgen : v % 256 = c
    have hc : c < 256 := by rw [← hgen]; exact Nat.mod_lt _ (by omega)
    clear hgen hstab hfw h0 h1 h2 h3 hok
    revert hc
    revert c
    revert hg
    revert gain
    decide

/-- C7 witness: gain code 5 on a device whose CFG1 reads 160 ends with the
low 5 bits holding 5 and the high 3 bits unchanged. -/
theorem set_gain_updates_low5_preserves_high3_witness :
    (AS7343_set_gain 5 sGain).1 = true ∧
    regVal (AS7343_set_gain 5 sGain).2 AS7343_REG_CFG1 &&& 31 = 5 ∧
    regVal (AS7343_set_gain 5 sGain).2 AS7343_REG_CFG1 >>> 5 =
      regVal sGain AS7343_REG_CFG1 >>> 5 :=
  set_gain_updates_low5_preserves_high3 5 sGain (by omega) (fun _ _ => rfl) rfl

--==================== C3 ====================--

/-- C3: whenever the 18-channel raw read inside
`AS7343_get_sorted_spectral_channels` succeeds and yields `raw`, the 12
outputs are exactly raw[12], raw[6], raw[0], raw[7], raw[8], raw[15],
raw[1], raw[2], raw[9], raw[13], raw[14], raw[3], in this order. -/
theorem get_sorted_is_fixed_permutation (fuel : Nat) (s s' : DrvState) (raw : List Nat)
    (h : AS7343_read_all_channels fuel (List.replicate AS7343_NUM_CHANNELS 0)
        AS7343_NUM_CHANNELS s = some (true, raw, s')) :
    AS7343_get_sorted_spectral_channels fuel (List.replicate AS7343_NUM_SORTED_CHANNELS 0) s =
      some (true, [raw.getD 12 0, raw.getD 6 0, raw.getD 0 0, raw.getD 7 0, raw.getD 8 0,
        raw.getD 15 0, raw.getD 1 0, raw.getD 2 0, raw.getD 9 0, raw.getD 13 0,
        raw.getD 14 0, raw.getD 3 0], s') := by
  simp only [AS7343_get_sorted_spectral_channels]
  rw [h]
  rfl

/-- C3 witness: on a device whose channel `i` reads `i` the sorted view is
exactly [12, 6, 0, 7, 8, 15, 1, 2, 9, 13, 14, 3]. -/
theorem get_sorted_is_fixed_permutation_witness :
    (AS7343_get_sorted_spectral_channels 2 (List.replicate AS7343_NUM_SORTED_CHANNELS 0)
        sAsc).map (fun r => (r.1, r.2.1)) =
      some (true, [12, 6, 0, 7, 8, 15, 1, 2, 9, 13, 14, 3]) := by
  rw [get_sorted_is_fixed_permutation 2 sAsc _ _ rfl]
  rfl

--==================== C1 ====================--

/-- C1 (amended): on a successful `spectro_app_acquire`, the stored sorted
view is the fixed permutation applied to the result of a *second* raw read
performed inside `AS7343_get_sorted_spectral_channels`, not necessarily to
the raw reading stored in the same measurement. -/
theorem acquire_sorted_from_second_read (fuel : Nat) (m0 m : SpectroMeasurement)
    (s s' s1 s2 : DrvState) (raw1 raw2 : List Nat)
    (hacq : spectro_app_acquire fuel m0 s = some (true, m, s'))
    (h1 : AS7343_read_all_channels fuel m0.raw AS7343_NUM_CHANNELS s = some (true, raw1, s1))
    (h2 : AS7343_read_all_channels fuel (List.replicate AS7343_NUM_CHANNELS 0)
        AS7343_NUM_CHANNELS s1 = some (true, raw2, s2)) :
    m.raw = raw1 ∧ m.sorted = sortedAssign m0.sorted raw2 ∧ s' = s2 := by
  have key : spectro_app_acquire fuel m0 s =
      some (true, ⟨raw1, sortedAssign m0.sorted raw2⟩, s2) := by
    simp only [spectro_app_acquire, AS7343_get_sorted_spectral_channels]
    rw [h1]
    dsimp only
    rw [h2]
  rw [key] at hacq
  simp only [Option.some.injEq, Prod.mk.injEq] at hacq
  obtain ⟨-, hm, hs⟩ := hacq
  subst hm
  subst hs
  exact ⟨rfl, rfl, rfl⟩

/-- C1 counterexample: a run of `spectro_app_acquire` that succeeds with a
stored raw reading of all zeros while the stored sorted view is all 257
(the device registers changed between the two internal bus reads), so the
sorted view is not the permutation of the stored raw reading. -/
theorem acquire_sorted_counterexample :
    (spectro_app_acquire 2 measLocal sC1).map (fun r => (r.1, r.2.1.raw, r.2.1.sorted)) =
      some (true, List.replicate 18 0, List.replicate 12 257) ∧
    ¬ (List.replicate 12 257 =
        [(List.replicate 18 (0 : Nat)).getD 12 0, (List.replicate 18 (0 : Nat)).getD 6 0,
         (List.replicate 18 (0 : Nat)).getD 0 0, (List.replicate 18 (0 : Nat)).getD 7 0,
         (List.replicate 18 (0 : Nat)).getD 8 0, (List.replicate 18 (0 : Nat)).getD 15 0,
         (List.replicate 18 (0 : Nat)).getD 1 0, (List.replicate 18 (0 : Nat)).getD 2 0,
         (List.replicate 18 (0 : Nat)).getD 9 0, (List.replicate 18 (0 : Nat)).getD 13 0,
         (List.replicate 18 (0 : Nat)).getD 14 0, (List.replicate 18 (0 : Nat)).getD 3 0]) := by
  exact ⟨by decide, by decide⟩

/-- C1 witness for the amended statement, on the same environment as the
counterexample: the sorted view equals the permutation of the second read. -/
theorem acquire_sorted_from_second_read_witness :
    (spectro_app_acquire 2 measLocal sC1).map (fun r => (r.2.1.raw, r.2.1.sorted)) =
      some (List.replicate 18 0, sortedAssign (List.replicate 12 0) (List.replicate 18 257)) := by
  have h := acquire_sorted_from_second_read 2 measLocal _ sC1 _ _ _ _ _ rfl rfl rfl
  obtain ⟨h1, h2, -⟩ := h
  decide

--==================== C2 ====================--

set_option maxRecDepth 8000 in
/-- C2 (amended): when the two bank-switch transactions and the identity
read all succeed (matched or mismatched identity alike), `AS7343_is_connected`
leaves the device in bank 0; but when the identity read (the third
transaction) fails, it returns false leaving the device in bank 1. -/
theorem is_connected_bank_effects (s : DrvState) :
    ((∀ j, j < 5 → s.failAt (s.tx + j) = false) →
      deviceBank (AS7343_is_connected s).2 = 0) ∧
    ((∀ j, j < 2 → s.failAt (s.tx + j) = false) → s.failAt (s.tx + 2) = true →
      (AS7343_is_connected s).1 = false ∧ deviceBank (AS7343_is_connected s).2 = 1) := by
  constructor
  · intro hok
    have h0 : s.failAt s.tx = false := by simpa using hok 0 (by omega)
    have h1 : s.failAt (s.tx + 1) = false := by simpa using hok 1 (by omega)
    have h2 : s.failAt (s.tx + 1 + 1) = false := by
      have := hok 2 (by omega); rwa [show s.tx + 2 = s.tx + 1 + 1 by omega] at this
    have h3 : s.failAt (s.tx + 1 + 1 + 1) = false := by
      have := hok 3 (by omega); rwa [show s.tx + 3 = s.tx + 1 + 1 + 1 by omega] at this
    have h4 : s.failAt (s.tx + 1 + 1 + 1 + 1) = false := by
      have := hok 4 (by omega); rwa [show s.tx + 4 = s.tx + 1 + 1 + 1 + 1 by omega] at this
    obtain ⟨c, hc256, hceq⟩ : ∃ c, c < 256 ∧ regVal s AS7343_REG_CFG0 = c :=
      ⟨_, regVal_lt s _, rfl⟩
    simp only [AS7343_is_connected, AS7343_set_reg_bank, AS7343_i2c_read_reg,
      AS7343_i2c_write_reg, txAdvance, h0, h1, h2, h3, h4, hceq, regVal_mk_head,
      deviceBank, Bool.false_eq_true, if_false, reduceIte]
    clear hceq h0 h1 h2 h3 h4 hok
    revert c
    decide
  · intro hok hfail
    have h0 : s.failAt s.tx = false := by simpa using hok 0 (by omega)
    have h1 : s.failAt (s.tx + 1) = false := by simpa using hok 1 (by omega)
    have h2 : s.failAt (s.tx + 1 + 1) = true := by
      rwa [show s.tx + 2 = s.tx + 1 + 1 by omega] at hfail
    obtain ⟨c, hc256, hceq⟩ : ∃ c, c < 256 ∧ regVal s AS7343_REG_CFG0 = c :=
      ⟨_, regVal_lt s _, rfl⟩
    simp only [AS7343_is_connected, AS7343_set_reg_bank, AS7343_i2c_read_reg,
      AS7343_i2c_write_reg, txAdvance, h0, h1, h2, hceq, regVal_mk_head,
      deviceBank, Bool.false_eq_true, if_false, if_true, reduceIte]
    clear hceq h0 h1 h2 hok hfail
    revert c
    decide

/-- C2 counterexample: with the identity read failing (third transaction),
`AS7343_is_connected` returns false and the device is left in bank 1, not
bank 0 as the claim states for all three scenarios. -/
theorem is_connected_bank_counterexample :
    (AS7343_is_connected sC2).1 = false ∧ deviceBank (AS7343_is_connected sC2).2 = 1 := by
  exact ⟨by decide, by decide⟩

/-- C2 witness: on a bus with no failures the device ends in bank 0. -/
theorem is_connected_bank_effects_witness :
    deviceBank (AS7343_is_connected sAsc).2 = 0 :=
  (is_connected_bank_effects sAsc).1 (fun _ _ => rfl)

--==================== C5 ====================--

theorem readChanLoop_fail (k : Nat) :
    ∀ (n i reg : Nat) (buf : List Nat) (s : DrvState),
      k < n → (∀ j, j < k → s.failAt (s.tx + j) = false) → s.failAt (s.tx + k) = true →
      (readChanLoop n i reg buf s).1 = false ∧
      ((readChanLoop n i reg buf s).2.1).drop (i + k) = buf.drop (i + k) := by
  induction k with
  | zero =>
    intro n i reg buf s hk hok hfail
    match n, hk with
    | n + 1, _ =>
      have hf : s.failAt s.tx = true := by simpa using hfail
      simp [readChanLoop, AS7343_i2c_read, txAdvance, hf]
  | succ k ih =>
    intro n i reg buf s hk hok hfail
    match n, hk with
    | n + 1, _ =>
      have h0 : s.failAt s.tx = false := by simpa using hok 0 (by omega)
      have hok1 : ∀ j, j < k → s.failAt (s.tx + 1 + j) = false := by
        intro j hj
        have := hok (j + 1) (by omega)
        rwa [show s.tx + (j + 1) = s.tx + 1 + j by omega] at this
      have hf1 : s.failAt (s.tx + 1 + k) = true := by
        rwa [show s.tx + (k + 1) = s.tx + 1 + k by omega] at hfail
      have key := ih n (i + 1) (reg + 2)
        (buf.set i (le16 ((List.range 2).map fun j => regVal s (reg + j))))
        ⟨s.ext, s.failAt, s.writes, s.tx + 1, s.clock, s.clk, s.timeoutMs⟩
        (by omega) hok1 hf1
      simp only [readChanLoop, AS7343_i2c_read, txAdvance, h0, Bool.false_eq_true,
        if_false, reduceIte] at key ⊢
      refine ⟨key.1, ?_⟩
      rw [show i + (k + 1) = i + 1 + k by omega]
      rw [key.2, List.drop_set]
      rw [if_pos (show i < i + 1 + k by omega)]

/-- C5: if the `i`-th of the 18 two-byte bursts of `AS7343_read_all_channels`
fails (after a successful bank switch and a first poll that sees AVALID,
and with the earlier bursts succeeding), the function returns false at once
and output slots `i` through 17 are never written. -/
theorem read_all_channels_aborts_on_failed_burst (fuel i : Nat) (buf : List Nat) (s : DrvState)
    (hi : i < 18)
    (hsh : findWrite s.writes AS7343_REG_STATUS2 = none)
    (hpre : ∀ j, j < 5 → s.failAt (s.tx + j) = false)
    (hready : s.ext (s.tx + 4) AS7343_REG_STATUS2 % 256 &&& 64 ≠ 0)
    (hok : ∀ j, j < i → s.failAt (s.tx + 5 + j) = false)
    (hfail : s.failAt (s.tx + 5 + i) = true) :
    (AS7343_read_all_channels (fuel + 1) buf 18 s).map (fun r => (r.1, r.2.1.drop i)) =
      some (false, buf.drop i) := by
  have h0 : s.failAt s.tx = false := by simpa using hpre 0 (by omega)
  have h1 : s.failAt (s.tx + 1) = false := by simpa using hpre 1 (by omega)
  have h2 : s.failAt (s.tx + 1 + 1) = false := by
    have := hpre 2 (by omega); rwa [show s.tx + 2 = s.tx + 1 + 1 by omega] at this
  have h3 : s.failAt (s.tx + 1 + 1 + 1) = false := by
    have := hpre 3 (by omega); rwa [show s.tx + 3 = s.tx + 1 + 1 + 1 by omega] at this
  have h4 : s.failAt (s.tx + 1 + 1 + 1 + 1) = false := by
    have := hpre 4 (by omega); rwa [show s.tx + 4 = s.tx + 1 + 1 + 1 + 1 by omega] at this
  have hready' : s.ext (s.tx + 1 + 1 + 1 + 1) AS7343_REG_STATUS2 % 256 &&& 64 ≠ 0 := by
    rwa [show s.tx + 4 = s.tx + 1 + 1 + 1 + 1 by omega] at hready
  have hok' : ∀ j, j < i → s.failAt (s.tx + 1 + 1 + 1 + 1 + 1 + j) = false := by
    intro j hj
    have := hok j hj
    rwa [show s.tx + 5 + j = s.tx + 1 + 1 + 1 + 1 + 1 + j by omega] at this
  have hfail' : s.failAt (s.tx + 1 + 1 + 1 + 1 + 1 + i) = true := by
    rwa [show s.tx + 5 + i = s.tx + 1 + 1 + 1 + 1 + 1 + i by omega] at hfail
  have hsh' : findWrite s.writes 144 = none := by simpa [AS7343_REG_STATUS2] using hsh
  have hready2 : ¬ (s.ext (s.tx + 1 + 1 + 1 + 1) 144 % 256 &&& 64 = 0) := by
    simpa [AS7343_REG_STATUS2] using hready'
  have key := readChanLoop_fail i 18 0 AS7343_REG_DATA0_L buf
    ⟨s.ext, s.failAt, (AS7343_REG_CFG0,
        ((regVal ⟨s.ext, s.failAt, (AS7343_REG_CFG0,
            (regVal s AS7343_REG_CFG0 &&& 239) % 256) :: s.writes, s.tx + 1 + 1,
            s.clock, s.clk + 1, s.timeoutMs⟩ AS7343_REG_CFG0) &&& 239) % 256) ::
      (AS7343_REG_CFG0, (regVal s AS7343_REG_CFG0 &&& 239) % 256) :: s.writes,
      s.tx + 1 + 1 + 1 + 1 + 1, s.clock, s.clk + 1, s.timeoutMs⟩
    hi hok' hfail'
  simp [AS7343_read_all_channels, AS7343_wait_data_ready, AS7343_wait_loop,
    AS7343_set_reg_bank, AS7343_i2c_read_reg, AS7343_i2c_write_reg, AS7343_i2c_read,
    millis, txAdvance, regVal, findWrite, hsh', h0, h1, h2, h3, h4, hready2,
    AS7343_NUM_CHANNELS, AS7343_REG_STATUS2, AS7343_REG_CFG0, AS7343_REG_DATA0_L,
    AS7343_STATUS2_AVALID_BIT, -Option.map_eq_some'] at key ⊢
  exact ⟨key.1, key.2⟩

/-- A bus whose 15th transaction — the 10th of the 18 channel bursts —
fails. -/
def failAt14 : Nat → Bool := fun n => n == 14

def sC5 : DrvState := ⟨extAsc, failAt14, [], 0, clk0, 0, 100⟩

/-- C5 witness: with the 10th burst failing, `AS7343_read_all_channels`
returns false and slots 9..17 still hold the original buffer contents. -/
theorem read_all_channels_aborts_witness :
    (AS7343_read_all_channels 1 (List.replicate 18 500) 18 sC5).map
        (fun r => (r.1, r.2.1.drop 9)) =
      some (false, (List.replicate 18 500).drop 9) :=
  read_all_channels_aborts_on_failed_burst 0 9 (List.replicate 18 500) sC5
    (by omega) rfl (by decide) (by decide) (by decide) (by decide)

--==================== C6 ====================--

/-- The 16-bit-wrapped elapsed time the C guard computes at the `i`-th
loop-condition check of an `AS7343_wait_data_ready` started in state `s`:
`(uint16_t)(millis() - start) ` with `start` the entry `millis()` value. -/
def waitElapsed (s : DrvState) (i : Nat) : Nat :=
  (s.clock (s.clk + 1 + i) % 4294967296 + 4294967296 - s.clock s.clk % 4294967296) %
    4294967296 % 65536

theorem waitLoop_ready_true (k : Nat) :
    ∀ (fuel start : Nat) (s : DrvState), k < fuel →
      (∀ j, s.failAt j = false) →
      findWrite s.writes 144 = none →
      (∀ i, i < k → s.ext (s.tx + i) 144 % 256 &&& 64 = 0) →
      (∀ i, i < k → (s.clock (s.clk + i) % 4294967296 + 4294967296 - start) %
        4294967296 % 65536 < s.timeoutMs) →
      s.ext (s.tx + k) 144 % 256 &&& 64 ≠ 0 →
      (AS7343_wait_loop start fuel s).map Prod.fst = some true := by
  induction k with
  | zero =>
    intro fuel start s hk hfail hsh hclear helap hset
    match fuel, hk with
    | fuel + 1, _ =>
      have hs : s.ext s.tx 144 % 256 &&& 64 ≠ 0 := by simpa using hset
      simp [AS7343_wait_loop, AS7343_i2c_read_reg, txAdvance, regVal, findWrite, hsh,
        hfail s.tx, AS7343_REG_STATUS2, AS7343_STATUS2_AVALID_BIT, hs]
  | succ k ih =>
    intro fuel start s hk hfail hsh hclear helap hset
    match fuel, hk with
    | fuel + 1, _ =>
      have hc0 : s.ext s.tx 144 % 256 &&& 64 = 0 := by simpa using hclear 0 (by omega)
      have he0 : (s.clock s.clk % 4294967296 + 4294967296 - start) % 4294967296 % 65536 <
          s.timeoutMs := by simpa using helap 0 (by omega)
      have hclear1 : ∀ i, i < k →
          s.ext (s.tx + 1 + i) 144 % 256 &&& 64 = 0 := by
        intro i hi
        have := hclear (i + 1) (by omega)
        rwa [show s.tx + (i + 1) = s.tx + 1 + i by omega] at this
      have helap1 : ∀ i, i < k →
          (s.clock (s.clk + 1 + i) % 4294967296 + 4294967296 - start) %
            4294967296 % 65536 < s.timeoutMs := by
        intro i hi
        have := helap (i + 1) (by omega)
        rwa [show s.clk + (i + 1) = s.clk + 1 + i by omega] at this
      have hset1 : s.ext (s.tx + 1 + k) 144 % 256 &&& 64 ≠ 0 := by
        rwa [show s.tx + (k + 1) = s.tx + 1 + k by omega] at hset
      have key := ih fuel start
        ⟨s.ext, s.failAt, s.writes, s.tx + 1, s.clock, s.clk + 1, s.timeoutMs⟩
        (by omega) hfail hsh hclear1 helap1 hset1
      simp [AS7343_wait_loop, AS7343_i2c_read_reg, millis, txAdvance, regVal,
        findWrite, hsh, hfail s.tx, AS7343_REG_STATUS2, AS7343_STATUS2_AVALID_BIT,
        hc0, he0] at key ⊢
      exact key

theorem waitLoop_timeout_false (k : Nat) :
    ∀ (fuel start : Nat) (s : DrvState), k < fuel →
      (∀ j, s.failAt j = false) →
      findWrite s.writes 144 = none →
      (∀ i, i ≤ k → s.ext (s.tx + i) 144 % 256 &&& 64 = 0) →
      (∀ i, i < k → (s.clock (s.clk + i) % 4294967296 + 4294967296 - start) %
        4294967296 % 65536 < s.timeoutMs) →
      ¬ ((s.clock (s.clk + k) % 4294967296 + 4294967296 - start) %
        4294967296 % 65536 < s.timeoutMs) →
      (AS7343_wait_loop start fuel s).map Prod.fst = some false := by
  induction k with
  | zero =>
    intro fuel start s hk hfail hsh hclear helap hout
    match fuel, hk with
    | fuel + 1, _ =>
      have hc0 : s.ext s.tx 144 % 256 &&& 64 = 0 := by simpa using hclear 0 (by omega)
      have hout0 : ¬ ((s.clock s.clk % 4294967296 + 4294967296 - start) %
          4294967296 % 65536 < s.timeoutMs) := by simpa using hout
      simp [AS7343_wait_loop, AS7343_i2c_read_reg, millis, txAdvance, regVal,
        findWrite, hsh, hfail s.tx, AS7343_REG_STATUS2, AS7343_STATUS2_AVALID_BIT,
        hc0, hout0]
  | succ k ih =>
    intro fuel start s hk hfail hsh hclear helap hout
    match fuel, hk with
    | fuel + 1, _ =>
      have hc0 : s.ext s.tx 144 % 256 &&& 64 = 0 := by simpa using hclear 0 (by omega)
      have he0 : (s.clock s.clk % 4294967296 + 4294967296 - start) % 4294967296 % 65536 <
          s.timeoutMs := by simpa using helap 0 (by omega)
      have hclear1 : ∀ i, i ≤ k →
          s.ext (s.tx + 1 + i) 144 % 256 &&& 64 = 0 := by
        intro i hi
        have := hclear (i + 1) (by omega)
        rwa [show s.tx + (i + 1) = s.tx + 1 + i by omega] at this
      have helap1 : ∀ i, i < k →
          (s.clock (s.clk + 1 + i) % 4294967296 + 4294967296 - start) %
            4294967296 % 65536 < s.timeoutMs := by
        intro i hi
        have := helap (i + 1) (by omega)
        rwa [show s.clk + (i + 1) = s.clk + 1 + i by omega] at this
      have hout1 : ¬ ((s.clock (s.clk + 1 + k) % 4294967296 + 4294967296 - start) %
          4294967296 % 65536 < s.timeoutMs) := by
        rwa [show s.clk + (k + 1) = s.clk + 1 + k by omega] at hout
      have key := ih fuel start
        ⟨s.ext, s.failAt, s.writes, s.tx + 1, s.clock, s.clk + 1, s.timeoutMs⟩
        (by omega) hfail hsh hclear1 helap1 hout1
      simp [AS7343_wait_loop, AS7343_i2c_read_reg, millis, txAdvance, regVal,
        findWrite, hsh, hfail s.tx, AS7343_REG_STATUS2, AS7343_STATUS2_AVALID_BIT,
        hc0, he0] at key ⊢
      exact key

/-- C6: with all bus transactions succeeding, `AS7343_wait_data_ready`
returns true as soon as a poll of STATUS2 observes the AVALID bit — the
first `k` polls being clear and in-window — even before the timeout; and it
returns false as soon as a loop-condition check finds the wraparound-safe
16-bit elapsed time at or past the timeout while no poll so far observed
the bit. -/
theorem wait_data_ready_poll_semantics (s : DrvState) (k fuel : Nat)
    (hfail : ∀ j, s.failAt j = false)
    (hsh : findWrite s.writes AS7343_REG_STATUS2 = none)
    (hk : k < fuel) :
    ((∀ i, i < k → s.ext (s.tx + 2 + i) AS7343_REG_STATUS2 % 256 &&& 64 = 0) →
     (∀ i, i < k → waitElapsed s i < s.timeoutMs) →
     s.ext (s.tx + 2 + k) AS7343_REG_STATUS2 % 256 &&& 64 ≠ 0 →
     (AS7343_wait_data_ready fuel s).map Prod.fst = some true) ∧
    ((∀ i, i ≤ k → s.ext (s.tx + 2 + i) AS7343_REG_STATUS2 % 256 &&& 64 = 0) →
     (∀ i, i < k → waitElapsed s i < s.timeoutMs) →
     ¬ (waitElapsed s k < s.timeoutMs) →
     (AS7343_wait_data_ready fuel s).map Prod.fst = some false) := by
  constructor
  · intro hclear helap hset
    have key := waitLoop_ready_true k fuel (s.clock s.clk % 4294967296)
      ⟨s.ext, s.failAt,
        (AS7343_REG_CFG0, (regVal s AS7343_REG_CFG0 &&& 239) % 256) :: s.writes,
        s.tx + 1 + 1, s.clock, s.clk + 1, s.timeoutMs⟩
      hk hfail
      (by simpa [findWrite, AS7343_REG_CFG0, AS7343_REG_STATUS2] using hsh)
      (by intro i hi
          have := hclear i hi
          simpa [AS7343_REG_STATUS2, show s.tx + 2 + i = s.tx + 1 + 1 + i by omega]
            using this)
      (by intro i hi
          have := helap i hi
          simpa [waitElapsed] using this)
      (by have := hset
          simpa [AS7343_REG_STATUS2, show s.tx + 2 + k = s.tx + 1 + 1 + k by omega]
            using this)
    simp only [AS7343_wait_data_ready, AS7343_set_reg_bank, AS7343_i2c_read_reg,
      AS7343_i2c_write_reg, millis, txAdvance, hfail s.tx, hfail (s.tx + 1),
      Bool.false_eq_true, if_false, reduceIte, AS7343_REG_CFG0]
    exact key
  · intro hclear helap hout
    have key := waitLoop_timeout_false k fuel (s.clock s.clk % 4294967296)
      ⟨s.ext, s.failAt,
        (AS7343_REG_CFG0, (regVal s AS7343_REG_CFG0 &&& 239) % 256) :: s.writes,
        s.tx + 1 + 1, s.clock, s.clk + 1, s.timeoutMs⟩
      hk hfail
      (by simpa [findWrite, AS7343_REG_CFG0, AS7343_REG_STATUS2] using hsh)
      (by intro i hi
          have := hclear i hi
          simpa [AS7343_REG_STATUS2, show s.tx + 2 + i = s.tx + 1 + 1 + i by omega]
            using this)
      (by intro i hi
          have := helap i hi
          simpa [waitElapsed] using this)
      (by have := hout
          simpa [waitElapsed] using this)
    simp only [AS7343_wait_data_ready, AS7343_set_reg_bank, AS7343_i2c_read_reg,
      AS7343_i2c_write_reg, millis, txAdvance, hfail s.tx, hfail (s.tx + 1),
      Bool.false_eq_true, if_false, reduceIte, AS7343_REG_CFG0]
    exact key

/-- A device whose STATUS2 AVALID bit appears only on the third poll
(transaction 4). -/
def extReadyAt4 : Nat → Nat → Nat := fun t _ => if t = 4 then 64 else 0

def sWaitTrue : DrvState := ⟨extReadyAt4, noFail, [], 0, clk0, 0, 100⟩

/-- A device whose AVALID bit never appears. -/
def extNever : Nat → Nat → Nat := fun _ _ => 0

/-- A millisecond clock advancing 60 ms per call. -/
def clk60 : Nat → Nat := fun c => c * 60

def sWaitTimeout : DrvState := ⟨extNever, noFail, [], 0, clk60, 0, 100⟩

/-- C6 witness: the ready bit on the third poll yields true well before the
100 ms timeout; a never-ready device under a 60 ms-per-poll clock yields
false at the second loop-condition check. -/
theorem wait_data_ready_poll_semantics_witness :
    (AS7343_wait_data_ready 5 sWaitTrue).map Prod.fst = some true ∧
    (AS7343_wait_data_ready 5 sWaitTimeout).map Prod.fst = some false :=
  ⟨(wait_data_ready_poll_semantics sWaitTrue 2 5 (fun _ => rfl) rfl (by omega)).1
      (by decide) (by decide) (by decide),
   (wait_data_ready_poll_semantics sWaitTimeout 1 5 (fun _ => rfl) rfl (by omega)).2
      (by decide) (by decide) (by decide)⟩

--==================== C8 ====================--

/-- C8: for every dispatched measurement (12 sorted values), the Data-Log
handler emits exactly `SORTED(405-855nm): ` followed by the 12 decimal
values joined by commas with no trailing comma, and the Infer-PC handler's
measurement line is exactly `MEAS,` followed by the same comma-joined
values. -/
theorem handlers_emit_csv (rawL : List Nat) (pcIn : Option String)
    (v0 v1 v2 v3 v4 v5 v6 v7 v8 v9 v10 v11 : Nat) :
    spectro_app_handle_data_log ⟨rawL, [v0, v1, v2, v3, v4, v5, v6, v7, v8, v9, v10, v11]⟩ =
      ["SORTED(405-855nm): " ++ toString v0 ++ "," ++ toString v1 ++ "," ++ toString v2 ++
        "," ++ toString v3 ++ "," ++ toString v4 ++ "," ++ toString v5 ++ "," ++ toString v6 ++
        "," ++ toString v7 ++ "," ++ toString v8 ++ "," ++ toString v9 ++ "," ++ toString v10 ++
        "," ++ toString v11] ∧
    (spectro_app_handle_infer_pc ⟨rawL, [v0, v1, v2, v3, v4, v5, v6, v7, v8, v9, v10, v11]⟩
        pcIn).head? =
      some ("MEAS," ++ toString v0 ++ "," ++ toString v1 ++ "," ++ toString v2 ++
        "," ++ toString v3 ++ "," ++ toString v4 ++ "," ++ toString v5 ++ "," ++ toString v6 ++
        "," ++ toString v7 ++ "," ++ toString v8 ++ "," ++ toString v9 ++ "," ++ toString v10 ++
        "," ++ toString v11) := by
  have hr : List.range 12 = [0, 1, 2, 3, 4, 5, 6, 7, 8, 9, 10, 11] := by decide
  constructor
  · simp [spectro_app_handle_data_log, printCSV, AS7343_NUM_SORTED_CHANNELS, hr,
      List.getD, String.append_assoc, String.append_empty, String.empty_append]
  · cases pcIn with
    | none =>
      simp [spectro_app_handle_infer_pc, printCSV, AS7343_NUM_SORTED_CHANNELS, hr,
        List.getD, String.append_assoc, String.append_empty, String.empty_append]
    | some line =>
      simp only [spectro_app_handle_infer_pc]
      split <;>
      simp [printCSV, AS7343_NUM_SORTED_CHANNELS, hr,
        List.getD, String.append_assoc, String.append_empty, String.empty_append]

--==================== C9 ====================--

/-- C9: when acquisition fails, `spectro_app_run_once` emits exactly the one
diagnostic line, dispatches no mode handler, and returns the application
state unchanged. -/
theorem run_once_skip_on_failure (fuel : Nat) (pcIn : Option String) (app : AppState)
    (s s1 : DrvState) (m : SpectroMeasurement)
    (h : spectro_app_acquire fuel measLocal s = some (false, m, s1)) :
    spectro_app_run_once fuel pcIn app s =
      some (["[spectro_app] ERROR: Failed to acquire measurement."], app, s1) := by
  simp only [spectro_app_run_once]
  rw [h]

/-- C9 witness: on a bus where every transaction fails, `run_once` emits the
diagnostic and leaves mode 0 / precision 1 untouched. -/
theorem run_once_skip_on_failure_witness :
    (spectro_app_run_once 0 none ⟨0, 1⟩ sFailAll).map
        (fun r => (r.1, r.2.1.appMode, r.2.1.precMode)) =
      some (["[spectro_app] ERROR: Failed to acquire measurement."], 0, 1) := by
  rw [run_once_skip_on_failure 0 none ⟨0, 1⟩ sFailAll _ _ rfl]
  rfl

--==================== C10 ====================--

/-- C10: any mode value outside {0, 1, 2} makes `spectro_app_run_once`
dispatch a successful measurement to the Data-Log handler. -/
theorem run_once_unknown_mode_falls_back (fuel : Nat) (pcIn : Option String) (app : AppState)
    (s s1 : DrvState) (m : SpectroMeasurement)
    (hm : 3 ≤ app.appMode)
    (h : spectro_app_acquire fuel measLocal s = some (true, m, s1)) :
    spectro_app_run_once fuel pcIn app s = some (spectro_app_handle_data_log m, app, s1) := by
  simp only [spectro_app_run_once]
  rw [h]
  obtain ⟨k, hk⟩ : ∃ k, app.appMode = k + 3 := ⟨app.appMode - 3, by omega⟩
  rw [hk]
  rfl

/-- C10 witness: mode 7 with a successful acquisition produces the Data-Log
line. -/
theorem run_once_unknown_mode_falls_back_witness :
    (spectro_app_run_once 2 none ⟨7, 1⟩ sAsc).map (fun r => (r.1, r.2.1.appMode)) =
      some (["SORTED(405-855nm): 12,6,0,7,8,15,1,2,9,13,14,3"], 7) := by
  rw [run_once_unknown_mode_falls_back 2 none ⟨7, 1⟩ sAsc _ _ (by decide) rfl]
  rfl

end Spectro
